import Mathlib

/-!
Verification of the chess engine core in `software4students/chessgame.py`
against its natural-language specification.

Shallow embedding conventions:

* Squares are pairs of integers `(x, y)` exactly as in the Python source
  (`x` = file, `y` = row index of `board_matrix`); values outside `[0,7]`
  remain representable because the source manipulates raw integers.
* A move is represented by its pair of coordinates.  The source passes
  moves around as four-character strings and converts with
  `to_coordinate` / `to_notation`; for files `a`..`h` and ranks `1`..`8`
  this conversion is a bijection with coordinate pairs, so the string
  layer is dropped and functions that in Python take a move string here
  take the parsed coordinate pair.
* `board_matrix` is embedded as a total function from coordinates to
  `Option Piece`; `get_boardpiece`/`set_boardpiece` assume valid
  positions (source comment), and all board accesses proved about below
  use coordinates in `[0,7]`.
* Python code that can raise an exception (attribute access on `None`,
  indexing an empty list, `min` of an empty list) is embedded in
  `Option`, with `none` denoting the raised exception.
-/

/-- Side of a piece or of the player to move (source: class `Side`). -/
inductive Side where
  | White
  | Black
deriving DecidableEq, Repr

/-- Kind of a chess piece (source: class `Material`). -/
inductive Material where
  | Rook
  | King
  | Pawn
  | Queen
  | Bishop
deriving DecidableEq, Repr

/-- A piece: owning side plus material kind (source: class `Piece`). -/
structure Piece where
  side : Side
  material : Material
deriving DecidableEq, Repr

/-- A move, as the parsed `(from, to)` coordinates of the source's
four-character move string. -/
abbrev Move := (Int × Int) × (Int × Int)

/-- A board configuration: whose turn it is plus the piece grid
(source: class `ChessBoard`; `board_matrix` embedded as a function). -/
structure ChessBoard where
  turn : Side
  board : Int × Int → Option Piece

/-- Source: `ChessBoard.get_boardpiece` (assumes the position is valid). -/
def get_boardpiece (b : ChessBoard) (pos : Int × Int) : Option Piece :=
  b.board pos

/-- Source: `ChessBoard.make_move`.  The Python copies the matrix, flips
the turn, writes the origin piece to the destination and then clears the
origin (so when both squares coincide the final write, clearing, wins).
The original object is untouched; the embedding is a pure function
returning the new configuration. -/
def make_move (b : ChessBoard) (m : Move) : ChessBoard :=
  let turn := if b.turn = Side.White then Side.Black else Side.White
  let piece := b.board m.1
  { turn := turn
    board := fun c => if c = m.1 then none else if c = m.2 then piece else b.board c }

/-- Source: `ChessBoard.is_king_dead`: scans every square looking for a
king of the given side. -/
def is_king_dead (b : ChessBoard) (side : Side) : Bool :=
  let seen_king :=
    (List.range 8).any fun x =>
      (List.range 8).any fun y =>
        match b.board ((x : Int), (y : Int)) with
        | some p => decide (p.side = side) && decide (p.material = Material.King)
        | none => false
  !seen_king

/-- Source: `ChessBoard.outside_board`.  The Python bounds tests are
chained comparisons `0 > v > 7`, i.e. `0 > v and v > 7`, embedded
verbatim. -/
def outside_board (s e : Int × Int) : Bool :=
  if (0 > s.1 ∧ s.1 > 7) ∨ (0 > s.2 ∧ s.2 > 7) then true
  else if (0 > e.1 ∧ e.1 > 7) ∨ (0 > e.2 ∧ e.2 > 7) then true
  else if e = s then true
  else false

/-- Source: `ChessBoard.spot_occupied`.  Returns whether the destination
holds a piece of the mover's own side.  When the destination is occupied
but the origin is empty, the Python evaluates `piece.side` on `None` and
raises `AttributeError`: embedded as `none`. -/
def spot_occupied (b : ChessBoard) (s e : Int × Int) : Option Bool :=
  match b.board e with
  | none => some false
  | some piece_end =>
    match b.board s with
    | none => none
    | some piece => if piece_end.side ≠ piece.side then some false else some true

/-- Source: `ChessBoard.piece_restriction`.  Returns `true` when the move
shape is forbidden for the piece on the origin square.  The Python first
evaluates `self.turn != piece.side`, which raises `AttributeError` when
the origin is empty (`none` here); its later `if None == piece` check is
unreachable. -/
def piece_restriction (b : ChessBoard) (s e : Int × Int) : Option Bool :=
  match b.board s with
  | none => none
  | some piece =>
    if b.turn ≠ piece.side then some true
    else if piece.material = Material.Pawn ∧ b.turn = Side.White then
      if e.2 - s.2 = -1 then
        if (s.1 - e.1).natAbs = 1 then
          if (b.board e).isSome then some false else some true
        else if s.1 = e.1 then some false
        else some true
      else some true
    else if piece.material = Material.Pawn ∧ b.turn = Side.Black then
      if e.2 - s.2 = 1 then
        if (s.1 - e.1).natAbs = 1 then
          if (b.board e).isSome then some false else some true
        else if s.1 = e.1 then some false
        else some true
      else some true
    else if piece.material = Material.Rook then
      -- python: nested ifs; the `elif` inner test `if start[0]-end[0]:`
      -- is reached only when that difference is zero, hence never fires
      if s.1 - e.1 ≠ 0 ∧ s.2 - e.2 ≠ 0 then some true else some false
    else if piece.material = Material.Queen then
      if (s.1 - e.1 ≠ 0 ∧ s.2 - e.2 ≠ 0) ∧ s.1 - e.1 ≠ s.2 - e.2 then some true
      else some false
    else if piece.material = Material.Bishop then
      if (s.1 - e.1 ≠ 0 ∧ s.2 - e.2 ≠ 0) ∧ s.1 - e.1 = s.2 - e.2 then some false
      else some true
    else -- King
      if (s.1 - e.1).natAbs > 1 then some true
      else if (s.2 - e.2).natAbs > 1 then some true
      else some false

/-- Offsets visited by the Python loops in `check_horizontal`,
`check_vertical` and `check_diagonal`: for a signed difference
`move_num`, `range(1, abs(move_num))` when negative and
`range(-move_num+1, 0)` otherwise. -/
def between_offsets (move_num : Int) : List Int :=
  if move_num < 0 then (List.range (move_num.natAbs - 1)).map (fun k => (k : Int) + 1)
  else (List.range (move_num.natAbs - 1)).map (fun k => -move_num + 1 + (k : Int))

/-- Source: `ChessBoard.check_horizontal`. -/
def check_horizontal (b : ChessBoard) (s e : Int × Int) : Bool :=
  (between_offsets (s.1 - e.1)).any fun i => (b.board (s.1 + i, s.2)).isSome

/-- Source: `ChessBoard.check_vertical`. -/
def check_vertical (b : ChessBoard) (s e : Int × Int) : Bool :=
  (between_offsets (s.2 - e.2)).any fun i => (b.board (s.1, s.2 + i)).isSome

/-- Source: `ChessBoard.check_diagonal` (steps both coordinates by the
offset derived from the horizontal difference). -/
def check_diagonal (b : ChessBoard) (s e : Int × Int) : Bool :=
  (between_offsets (s.1 - e.1)).any fun i => (b.board (s.1 + i, s.2 + i)).isSome

/-- Source: `ChessBoard.path_obstructed`.  Accesses `piece.material` on
the origin piece, raising (`none`) when the origin is empty. -/
def path_obstructed (b : ChessBoard) (s e : Int × Int) : Option Bool :=
  match b.board s with
  | none => none
  | some piece =>
    if piece.material = Material.Pawn then some false
    else if piece.material = Material.King then some false
    else
      let horizontal := (s.1 - e.1).natAbs
      let vertical := (s.2 - e.2).natAbs
      if horizontal = vertical then some (check_diagonal b s e)
      else if horizontal ≠ 0 then some (check_horizontal b s e)
      else some (check_vertical b s e)

/-- Source: `ChessBoard.is_legal_move` (on the parsed coordinates): the
conjunction of the four checks, with each Python early `return False`
and with exception propagation. -/
def is_legal_move (b : ChessBoard) (m : Move) : Option Bool :=
  if outside_board m.1 m.2 then some false
  else
    match spot_occupied b m.1 m.2 with
    | none => none
    | some true => some false
    | some false =>
      match piece_restriction b m.1 m.2 with
      | none => none
      | some true => some false
      | some false =>
        match path_obstructed b m.1 m.2 with
        | none => none
        | some true => some false
        | some false => some true

/-- Source: `ChessBoard.all_moves`: all 64 destination squares from one
origin, in the source's `for i: for j:` order. -/
def all_moves (c : Int × Int) : List Move :=
  (List.range 8).flatMap fun i =>
    (List.range 8).map fun j => (c, ((i : Int), (j : Int)))

/-- Source: `ChessBoard.legal_moves`: origins scanned in `for x: for y:`
order; candidates of the side to move filtered through
`is_legal_move`.  For these generated candidates the origin square holds
a piece of the side to move, so `is_legal_move` never raises. -/
def legal_moves (b : ChessBoard) : List Move :=
  (List.range 8).flatMap fun x =>
    (List.range 8).flatMap fun y =>
      match b.board ((x : Int), (y : Int)) with
      | some piece =>
        if piece.side = b.turn then
          (all_moves ((x : Int), (y : Int))).filter fun m =>
            decide (is_legal_move b m = some true)
        else []
      | none => []

/-- Source: `ChessComputer.get_score`: Pawn 1, Rook 10, Bishop 10,
Queen 50, otherwise (King) 150. -/
def get_score (m : Material) : Int :=
  if m = Material.Pawn then 1
  else if m = Material.Rook then 10
  else if m = Material.Bishop then 10
  else if m = Material.Queen then 50
  else 150

/-- Source: `ChessComputer.count_pieces`. -/
def count_pieces (b : ChessBoard) (side : Side) : Int :=
  (List.range 8).foldl
    (fun acc i =>
      (List.range 8).foldl
        (fun acc2 j =>
          match b.board ((i : Int), (j : Int)) with
          | some p => if p.side = side then acc2 + get_score p.material else acc2
          | none => acc2)
        acc)
    0

/-- Source: `ChessComputer.get_weight`. -/
def get_weight (depth_left : Int) : Int := depth_left

/-- Source: `ChessComputer.evaluate_board`: material difference weighted
by remaining depth. -/
def evaluate_board (b : ChessBoard) (depth_left : Int) : Int :=
  get_weight depth_left * (count_pieces b Side.White - count_pieces b Side.Black)

/-- Source: `ChessComputer.scores`: evaluation of the position after
each possible move. -/
def scores (b : ChessBoard) (possible_moves : List Move) (depth : Int) : List Int :=
  possible_moves.map fun m => evaluate_board (make_move b m) depth

/-- Python `min` over a list of scores; `min([])` raises `ValueError`,
embedded as `none`. -/
def minList : List Int → Option Int
  | [] => none
  | x :: xs => some (xs.foldl min x)

/-!
The search.  Recursion in the source decrements the integer depth by one
on every level and bottoms out at `depth == 1` (or a dead king), so for
the depths the driver uses (`max_depth >= 1`) the recursion depth is
bounded by the depth argument; the helpers are embedded with the depth
as a natural number and recurse structurally on it.  A helper entered at
depth `0` corresponds to the source's non-terminating regime (reachable
only from `max_depth <= 0`) and is mapped to `none`; no theorem below
depends on that arm.  The `for move in possible_moves` loops are split
off into list folds that take the recursive child evaluation as a
function argument; `none` (a raised exception) aborts the loop.
-/

/-- The loop of `min_value` / `max_value`: fold the child values,
keeping `value` whenever `better value best` holds (strict `<` for the
minimizer, strict `>` for the maximizer). -/
def value_fold (step : Move → Option Int) (better : Int → Int → Bool) :
    List Move → Int → Option Int
  | [], best => some best
  | mv :: rest, best =>
    match step mv with
    | none => none
    | some value => value_fold step better rest (if better value best then value else best)

/-- The loop of `min_value_ab`: update the best value, return early on
`value <= alpha`, then shrink `beta`. -/
def ab_min_fold (step : Move → Int → Int → Option Int) :
    List Move → Int → Int → Int → Option Int
  | [], _, _, best => some best
  | mv :: rest, alpha, beta, best =>
    match step mv alpha beta with
    | none => none
    | some value =>
      let best1 := if value < best then value else best
      if value ≤ alpha then some value
      else ab_min_fold step rest alpha (min beta value) best1

/-- The loop of `max_value_ab`: update the best value, return early on
`value >= beta`, then raise `alpha`. -/
def ab_max_fold (step : Move → Int → Int → Option Int) :
    List Move → Int → Int → Int → Option Int
  | [], _, _, best => some best
  | mv :: rest, alpha, beta, best =>
    match step mv alpha beta with
    | none => none
    | some value =>
      let best1 := if value > best then value else best
      if value ≥ beta then some value
      else ab_max_fold step rest (max alpha value) beta best1

mutual

/-- Source: `ChessComputer.min_value`: decrement the depth, evaluate
immediately when the side to move has no king, take `min(scores)` at the
`depth == 1` frontier (raising, i.e. `none`, on an empty move list), and
otherwise fold `max_value` over the children with strict `<`. -/
def min_value (b : ChessBoard) : Nat → Option Int
  | 0 => none
  | d1 + 1 =>
    if is_king_dead b b.turn then some (evaluate_board b (d1 : Int))
    else
      let possible_moves := legal_moves b
      if d1 = 1 then minList (scores b possible_moves (d1 : Int))
      else value_fold (fun mv => max_value (make_move b mv) d1) (· < ·)
        possible_moves 9999999

/-- Source: `ChessComputer.max_value`.  At the `depth == 1` frontier the
source computes `min(scores)` (not `max`), embedded verbatim. -/
def max_value (b : ChessBoard) : Nat → Option Int
  | 0 => none
  | d1 + 1 =>
    if is_king_dead b b.turn then some (evaluate_board b (d1 : Int))
    else
      let possible_moves := legal_moves b
      if d1 = 1 then minList (scores b possible_moves (d1 : Int))
      else value_fold (fun mv => min_value (make_move b mv) d1) (· > ·)
        possible_moves (-9999999)

end

mutual

/-- Source: `ChessComputer.min_value_ab` (alpha-beta version of
`min_value`, with the pruning fold `ab_min_fold`). -/
def min_value_ab (b : ChessBoard) : Nat → Int → Int → Option Int
  | 0, _, _ => none
  | d1 + 1, alpha, beta =>
    if is_king_dead b b.turn then some (evaluate_board b (d1 : Int))
    else
      let possible_moves := legal_moves b
      if d1 = 1 then minList (scores b possible_moves (d1 : Int))
      else ab_min_fold (fun mv a2 b2 => max_value_ab (make_move b mv) d1 a2 b2)
        possible_moves alpha beta 9999999

/-- Source: `ChessComputer.max_value_ab`.  Like `max_value` it computes
`min(scores)` at the `depth == 1` frontier. -/
def max_value_ab (b : ChessBoard) : Nat → Int → Int → Option Int
  | 0, _, _ => none
  | d1 + 1, alpha, beta =>
    if is_king_dead b b.turn then some (evaluate_board b (d1 : Int))
    else
      let possible_moves := legal_moves b
      if d1 = 1 then minList (scores b possible_moves (d1 : Int))
      else ab_max_fold (fun mv a2 b2 => min_value_ab (make_move b mv) d1 a2 b2)
        possible_moves alpha beta (-9999999)

end

/-- The `for move in possible_moves` loop of `ChessComputer.minimax`:
Black minimizes with strict `<`, White maximizes with strict `>`, the
first move of the list being the initial best move. -/
def minimax_loop (b : ChessBoard) (moves : List Move) (d1 : Nat)
    (best : Int × Move) : Option (Int × Move) :=
  match moves with
  | [] => some best
  | mv :: rest =>
    if b.turn = Side.Black then
      match max_value (make_move b mv) d1 with
      | none => none
      | some score =>
        minimax_loop b rest d1 (if score < best.1 then (score, mv) else best)
    else
      match min_value (make_move b mv) d1 with
      | none => none
      | some score =>
        minimax_loop b rest d1 (if score > best.1 then (score, mv) else best)

/-- Source: `ChessComputer.minimax`: increments the depth, takes
`possible_moves[0]` as initial best move (raising `IndexError`, i.e.
`none`, when the list is empty) and folds the loop over all moves. -/
def minimax (b : ChessBoard) (d : Nat) : Option (Int × Move) :=
  let d1 := d + 1
  let possible_moves := legal_moves b
  match possible_moves with
  | [] => none
  | m0 :: _ =>
    let best_score : Int := if b.turn = Side.Black then 9999999 else -9999999
    minimax_loop b possible_moves d1 (best_score, m0)

/-- The root loop of `ChessComputer.alphabeta`: identical to the minimax
root loop except that the children are searched with `min_value_ab` /
`max_value_ab`; the `(alpha, beta)` pair is passed unchanged to every
child (the root never updates it). -/
def alphabeta_loop (b : ChessBoard) (moves : List Move) (d1 : Nat)
    (alpha beta : Int) (best : Int × Move) : Option (Int × Move) :=
  match moves with
  | [] => some best
  | mv :: rest =>
    if b.turn = Side.Black then
      match max_value_ab (make_move b mv) d1 alpha beta with
      | none => none
      | some score =>
        alphabeta_loop b rest d1 alpha beta (if score < best.1 then (score, mv) else best)
    else
      match min_value_ab (make_move b mv) d1 alpha beta with
      | none => none
      | some score =>
        alphabeta_loop b rest d1 alpha beta (if score > best.1 then (score, mv) else best)

set_option linter.unusedVariables false in
/-- Source: `ChessComputer.alphabeta`: like `minimax`, but before the
loop it overwrites both window parameters with the constants
`alpha = -9999999`, `beta = 9999999`, so the supplied window is ignored. -/
def alphabeta (b : ChessBoard) (d : Nat) (alpha beta : Int) : Option (Int × Move) :=
  let d1 := d + 1
  let possible_moves := legal_moves b
  match possible_moves with
  | [] => none
  | m0 :: _ =>
    let best_score : Int := if b.turn = Side.Black then 9999999 else -9999999
    let alpha : Int := -9999999
    let beta : Int := 9999999
    alphabeta_loop b possible_moves d1 alpha beta (best_score, m0)

/-- Source: `ChessComputer.computer_move`: dispatches to `alphabeta`
with the window `(-99999999, 99999999)` or to `minimax`. -/
def computer_move (b : ChessBoard) (depth : Nat) (use_alphabeta : Bool) :
    Option (Int × Move) :=
  if use_alphabeta then
    let inf : Int := 99999999
    let min_inf : Int := -inf
    alphabeta b depth min_inf inf
  else minimax b depth

/-!
Concrete board configurations used to settle the claims.  Piece lists
are turned into a board function by `boardOf`.
-/

/-- Build a board function from an association list of occupied squares. -/
def boardOf (ps : List ((Int × Int) × Piece)) : Int × Int → Option Piece :=
  fun c => (ps.find? fun q => decide (q.1 = c)).map Prod.snd

/-- Position with both kings present in which the side to move (Black)
has no legal move at all: the Black king on `(0,7)` is boxed in by its
own pawns, Black pawns on row `7` have no generated destination, and
the remaining Black pawns are blocked.  Spec scenario for
`NoLegalMoves`; also used for the empty-origin-square exhibit. -/
def noMoveBoard : ChessBoard where
  turn := Side.Black
  board := boardOf
    [(((0 : Int), (7 : Int)), ⟨Side.Black, Material.King⟩),
     (((1 : Int), (7 : Int)), ⟨Side.Black, Material.Pawn⟩),
     (((0 : Int), (6 : Int)), ⟨Side.Black, Material.Pawn⟩),
     (((1 : Int), (6 : Int)), ⟨Side.Black, Material.Pawn⟩),
     (((7 : Int), (0 : Int)), ⟨Side.White, Material.King⟩)]

/-- Position, Black to move, with exactly one legal Black move
`(5,6) -> (5,7)`.  After it, Black is permanently moveless unless White
moves its rook from `(3,0)` to `(3,7)`, where the Black pawn on `(4,6)`
can capture it, leaving White (whose king is boxed in at `(7,0)`)
without any legal move at the search frontier. -/
def divergenceBoard : ChessBoard where
  turn := Side.Black
  board := boardOf
    [(((0 : Int), (7 : Int)), ⟨Side.Black, Material.King⟩),
     (((1 : Int), (7 : Int)), ⟨Side.Black, Material.Pawn⟩),
     (((0 : Int), (6 : Int)), ⟨Side.Black, Material.Pawn⟩),
     (((1 : Int), (6 : Int)), ⟨Side.Black, Material.Pawn⟩),
     (((4 : Int), (6 : Int)), ⟨Side.Black, Material.Pawn⟩),
     (((4 : Int), (7 : Int)), ⟨Side.Black, Material.Pawn⟩),
     (((5 : Int), (6 : Int)), ⟨Side.Black, Material.Pawn⟩),
     (((3 : Int), (0 : Int)), ⟨Side.White, Material.Rook⟩),
     (((7 : Int), (0 : Int)), ⟨Side.White, Material.King⟩),
     (((6 : Int), (0 : Int)), ⟨Side.White, Material.Pawn⟩),
     (((7 : Int), (1 : Int)), ⟨Side.White, Material.Pawn⟩),
     (((6 : Int), (1 : Int)), ⟨Side.White, Material.Pawn⟩)]

/-- Position, Black to move, with exactly one legal Black move
`(5,6) -> (5,7)`; the White rook on `(1,3)` then has both quiet moves
and a capture of the Black pawn on `(1,6)`, so the White frontier node
has children of different evaluation. -/
def maxNodeBoard : ChessBoard where
  turn := Side.Black
  board := boardOf
    [(((0 : Int), (7 : Int)), ⟨Side.Black, Material.King⟩),
     (((1 : Int), (7 : Int)), ⟨Side.Black, Material.Pawn⟩),
     (((0 : Int), (6 : Int)), ⟨Side.Black, Material.Pawn⟩),
     (((1 : Int), (6 : Int)), ⟨Side.Black, Material.Pawn⟩),
     (((5 : Int), (6 : Int)), ⟨Side.Black, Material.Pawn⟩),
     (((1 : Int), (3 : Int)), ⟨Side.White, Material.Rook⟩),
     (((7 : Int), (0 : Int)), ⟨Side.White, Material.King⟩),
     (((6 : Int), (0 : Int)), ⟨Side.White, Material.Pawn⟩),
     (((7 : Int), (1 : Int)), ⟨Side.White, Material.Pawn⟩),
     (((6 : Int), (1 : Int)), ⟨Side.White, Material.Pawn⟩)]

/-- White to move; the White pawn on `(4,4)` faces a Black pawn directly
ahead on `(4,3)`. -/
def pawnBoard : ChessBoard where
  turn := Side.White
  board := boardOf
    [(((4 : Int), (4 : Int)), ⟨Side.White, Material.Pawn⟩),
     (((4 : Int), (3 : Int)), ⟨Side.Black, Material.Pawn⟩),
     (((7 : Int), (0 : Int)), ⟨Side.White, Material.King⟩),
     (((0 : Int), (7 : Int)), ⟨Side.Black, Material.King⟩)]

/-- White to move with a White bishop on `(2,2)` and empty diagonals. -/
def bishopBoard : ChessBoard where
  turn := Side.White
  board := boardOf
    [(((2 : Int), (2 : Int)), ⟨Side.White, Material.Bishop⟩),
     (((7 : Int), (0 : Int)), ⟨Side.White, Material.King⟩),
     (((0 : Int), (7 : Int)), ⟨Side.Black, Material.King⟩)]

/-- White to move with a White queen on `(2,2)` and empty diagonals. -/
def queenBoard : ChessBoard where
  turn := Side.White
  board := boardOf
    [(((2 : Int), (2 : Int)), ⟨Side.White, Material.Queen⟩),
     (((7 : Int), (0 : Int)), ⟨Side.White, Material.King⟩),
     (((0 : Int), (7 : Int)), ⟨Side.Black, Material.King⟩)]

/-- White to move with a lone White pawn on `(4,4)` (plus kings); used
for the `make_move` claims. -/
def pawnMoveBoard : ChessBoard where
  turn := Side.White
  board := boardOf
    [(((4 : Int), (4 : Int)), ⟨Side.White, Material.Pawn⟩),
     (((7 : Int), (0 : Int)), ⟨Side.White, Material.King⟩),
     (((0 : Int), (7 : Int)), ⟨Side.Black, Material.King⟩)]

/-!
Settlement of the claims.
-/

set_option maxRecDepth 1000000 in
set_option maxHeartbeats 16000000 in
/-- Claim C1: the claim states that alpha-beta (as invoked via
`computer_move`) and plain minimax return the identical `(score, move)`
pair for every position and depth.  The code violates this: on
`divergenceBoard` at max depth 3, minimax explores the rook move to
`(3,7)`, after whose forced capture White has no legal move, so the
frontier computes `min` of an empty score list and raises
(`none`), while alphabeta beta-cuts after its first reply (a position
where Black is moveless yields the sentinel `9999999 >= beta`) and never
reaches that subtree, returning a result.  This theorem evaluates both
searches at that failing input. -/
theorem C1_alphabeta_differs_from_minimax :
    computer_move divergenceBoard 3 false = none ∧
    computer_move divergenceBoard 3 true =
      some (9999999, (((5 : Int), (6 : Int)), ((5 : Int), (7 : Int)))) := by
  constructor
  · decide
  · decide

set_option maxRecDepth 1000000 in
set_option maxHeartbeats 4000000 in
/-- Claim C2: the claim states that on a position with an empty
legal-move list the searches surface a distinct, defined NoLegalMoves
failure and never index into the empty list.  The code instead evaluates
`possible_moves[0]` unconditionally, raising `IndexError` (embedded as
`none`): an uncontrolled fault, with both kings still on the board. -/
theorem C2_empty_move_list_crashes_search :
    legal_moves noMoveBoard = [] ∧
    is_king_dead noMoveBoard Side.Black = false ∧
    is_king_dead noMoveBoard Side.White = false ∧
    minimax noMoveBoard 3 = none ∧
    alphabeta noMoveBoard 3 (-99999999) 99999999 = none := by
  refine ⟨by decide, by decide, by decide, by decide, by decide⟩

/-- Claim C3: the claim states that `outside_board` returns `true`
exactly when some coordinate lies outside `[0,7]` or the squares
coincide.  Because the Python bounds tests are chained comparisons
`0 > v > 7`, which are unsatisfiable, the code returns `false` for
squares far off the board; only the `end == start` test ever fires. -/
theorem C3_outside_board_ignores_bounds :
    outside_board ((8 : Int), (0 : Int)) ((0 : Int), (0 : Int)) = false ∧
    outside_board ((-1 : Int), (3 : Int)) ((2 : Int), (2 : Int)) = false ∧
    outside_board ((0 : Int), (0 : Int)) ((8 : Int), (8 : Int)) = false ∧
    outside_board ((0 : Int), (0 : Int)) ((0 : Int), (0 : Int)) = true := by
  decide

set_option maxRecDepth 1000000 in
set_option maxHeartbeats 4000000 in
/-- Claim C4: the claim states that a White-to-move node is valued as
the maximum over its children.  In the code `max_value` computes
`min(scores)` at its `depth == 1` frontier, so on `maxNodeBoard` at max
depth 1 the White node after Black's only move has a child of
evaluation `10` (the rook capture) yet the search values it `9` (the
minimum, a quiet move) and reports score `9` at the root. -/
theorem C4_white_frontier_node_takes_minimum :
    minimax maxNodeBoard 1 =
      some (9, (((5 : Int), (6 : Int)), ((5 : Int), (7 : Int)))) ∧
    (10 : Int) ∈
      scores (make_move maxNodeBoard (((5 : Int), (6 : Int)), ((5 : Int), (7 : Int))))
        (legal_moves (make_move maxNodeBoard (((5 : Int), (6 : Int)), ((5 : Int), (7 : Int)))))
        1 := by
  constructor
  · decide
  · decide

/-- Claim C5: the claim states that a pawn may move one square straight
ahead only to an empty destination.  The code's straight-ahead branch
never checks the destination, so a White pawn on `(4,4)` is allowed to
move onto the Black pawn directly ahead on `(4,3)` — a straight-ahead
capture, which the claim forbids. -/
theorem C5_pawn_captures_straight_ahead :
    pawnBoard.board ((4 : Int), (3 : Int)) = some ⟨Side.Black, Material.Pawn⟩ ∧
    is_legal_move pawnBoard (((4 : Int), (4 : Int)), ((4 : Int), (3 : Int))) = some true := by
  decide

/-- Claim C6: the claim states that Bishop (and the diagonal half of
Queen) shapes cover both diagonal directions (equal nonzero absolute
deltas).  The code compares the signed differences, so the
anti-diagonal step from `(2,2)` to `(3,1)` (deltas `-1` and `+1`) is
rejected for both pieces even though the squares are empty, while the
same-sign diagonal to `(3,3)` is accepted. -/
theorem C6_bishop_queen_reject_antidiagonal :
    bishopBoard.board ((3 : Int), (1 : Int)) = none ∧
    is_legal_move bishopBoard (((2 : Int), (2 : Int)), ((3 : Int), (1 : Int))) = some false ∧
    is_legal_move bishopBoard (((2 : Int), (2 : Int)), ((3 : Int), (3 : Int))) = some true ∧
    is_legal_move queenBoard (((2 : Int), (2 : Int)), ((3 : Int), (1 : Int))) = some false := by
  decide

/-- Claim C7: the claim states that an on-board move from an empty
origin square is reported illegal via the boolean result and never
faults.  The code evaluates `piece.side` on the `None` origin (in
`piece_restriction`, before its unreachable `None` check), raising
`AttributeError` (embedded as `none`) instead of returning `False`. -/
theorem C7_empty_origin_square_raises :
    noMoveBoard.board ((3 : Int), (3 : Int)) = none ∧
    outside_board ((3 : Int), (3 : Int)) ((3 : Int), (4 : Int)) = false ∧
    is_legal_move noMoveBoard (((3 : Int), (3 : Int)), ((3 : Int), (4 : Int))) = none := by
  decide

/-- Claim C8, counterexample: the claim quantifies over every move, but
for a move whose origin and destination coincide `make_move` clears the
square (the final write wins), so the destination does not hold the
piece that was at the origin. -/
theorem C8_null_move_counterexample :
    pawnMoveBoard.board ((4 : Int), (4 : Int)) = some ⟨Side.White, Material.Pawn⟩ ∧
    (make_move pawnMoveBoard (((4 : Int), (4 : Int)), ((4 : Int), (4 : Int)))).board
      ((4 : Int), (4 : Int)) = none := by
  decide

/-- Claim C8, amended: for every move whose origin and destination
squares differ, `make_move` returns a position with the side to move
flipped, the origin piece on the destination square, the origin square
cleared, and every other square unchanged.  (That the original position
is not mutated is inherent in the embedding: `make_move` is a pure
function on a copied matrix, exactly as the source copies
`board_matrix`.) -/
theorem C8_make_move_frame (b : ChessBoard) (m : Move) (h : m.1 ≠ m.2) :
    (make_move b m).turn = (if b.turn = Side.White then Side.Black else Side.White) ∧
    (make_move b m).board m.2 = b.board m.1 ∧
    (make_move b m).board m.1 = none ∧
    ∀ c : Int × Int, c ≠ m.1 → c ≠ m.2 → (make_move b m).board c = b.board c := by
  refine ⟨rfl, ?_, ?_, ?_⟩
  · show (if m.2 = m.1 then none else if m.2 = m.2 then b.board m.1 else b.board m.2) =
      b.board m.1
    rw [if_neg (Ne.symm h), if_pos rfl]
  · show (if m.1 = m.1 then none else if m.1 = m.2 then b.board m.1 else b.board m.1) =
      none
    rw [if_pos rfl]
  · intro c h1 h2
    show (if c = m.1 then none else if c = m.2 then b.board m.1 else b.board c) = b.board c
    rw [if_neg h1, if_neg h2]

/-- Witness for the amended claim C8 at a concrete input: moving the
pawn from `(4,4)` to the distinct square `(4,5)` puts it on `(4,5)`. -/
theorem C8_make_move_frame_witness :
    ((((4 : Int), (4 : Int)), ((4 : Int), (5 : Int))) : Move).1 ≠
      ((((4 : Int), (4 : Int)), ((4 : Int), (5 : Int))) : Move).2 ∧
    (make_move pawnMoveBoard (((4 : Int), (4 : Int)), ((4 : Int), (5 : Int)))).board
      ((4 : Int), (5 : Int)) = pawnMoveBoard.board ((4 : Int), (4 : Int)) :=
  ⟨by decide,
   (C8_make_move_frame pawnMoveBoard (((4 : Int), (4 : Int)), ((4 : Int), (5 : Int)))
     (by decide)).2.1⟩

/-- Claim C9: applying a move to an empty destination square and then
the inverse move restores the piece placement on every square. -/
theorem C9_round_trip (b : ChessBoard) (a e : Int × Int) (h : b.board e = none) :
    ∀ c : Int × Int, (make_move (make_move b (a, e)) (e, a)).board c = b.board c := by
  intro c
  show (if c = e then none
        else if c = a then
          (if e = a then none else if e = e then b.board a else b.board e)
        else (if c = a then none else if c = e then b.board a else b.board c)) = b.board c
  by_cases hce : c = e
  · rw [if_pos hce, hce, h]
  · rw [if_neg hce]
    by_cases hca : c = a
    · rw [if_pos hca]
      have hea : ¬e = a := fun heq => hce (hca.trans heq.symm)
      rw [if_neg hea, if_pos rfl, hca]
    · rw [if_neg hca, if_neg hca, if_neg hce]

/-- Witness for claim C9 at a concrete input: the pawn move from
`(4,4)` to the empty square `(4,5)` and back restores the pawn. -/
theorem C9_round_trip_witness :
    pawnMoveBoard.board ((4 : Int), (5 : Int)) = none ∧
    (make_move
        (make_move pawnMoveBoard (((4 : Int), (4 : Int)), ((4 : Int), (5 : Int))))
        (((4 : Int), (5 : Int)), ((4 : Int), (4 : Int)))).board ((4 : Int), (4 : Int)) =
      pawnMoveBoard.board ((4 : Int), (4 : Int)) :=
  ⟨by decide,
   C9_round_trip pawnMoveBoard ((4 : Int), (4 : Int)) ((4 : Int), (5 : Int)) (by decide)
     ((4 : Int), (4 : Int))⟩

/-- Claim C10: the `(score, move)` result of `alphabeta` is independent
of the `alpha` and `beta` arguments it is called with, because the
function overwrites both with fixed constants before the move loop. -/
theorem C10_alphabeta_ignores_window (b : ChessBoard) (d : Nat) (a1 b1 a2 b2 : Int) :
    alphabeta b d a1 b1 = alphabeta b d a2 b2 := rfl
